import Mathlib

/-!
Verification of the pose-feedback analyzer (feature extraction, difference
scoring, prompt construction, response validation, feedback store).

The definitions below are a shallow embedding of the TypeScript sources
`frameData.ts` (landmark vocabulary, angle extractor) and `feedback.ts`
(difference scorer, prompt builder, response validator, feedback store).
JavaScript numbers are modelled as real numbers, with the IEEE NaN value
modelled by an explicit sentinel constructor; JavaScript strings are
modelled as Lean strings (operated on through their character lists).
-/

open Real

/-- Coordinate point, the JS pair [x, y] of numbers. -/
abbrev Point : Type := ℝ × ℝ

/-- Value of one angle slot: a JS number that is either an actual number or NaN.
The sources use NaN as the "undefined angle" sentinel, and NaN propagates
through subtraction exactly as the `nan` constructor does below. -/
inductive AngleValue : Type where
  | nan : AngleValue
  | val : ℝ → AngleValue

/-- Boolean NaN test, the JS `isNaN` on an angle slot. -/
def AngleValue.isNan : AngleValue → Bool
  | .nan => true
  | .val _ => false

/-- The fixed landmark vocabulary, the TS `enum PoseLandmark`. -/
inductive PoseLandmark : Type where
  | LEFT_SHOULDER
  | RIGHT_SHOULDER
  | LEFT_ELBOW
  | RIGHT_ELBOW
  | LEFT_WRIST
  | RIGHT_WRIST
deriving DecidableEq

/-- Numeric value of each enum member, as declared in the TS source. -/
def poseLandmarkIndex : PoseLandmark → ℕ
  | .LEFT_SHOULDER => 0
  | .RIGHT_SHOULDER => 1
  | .LEFT_ELBOW => 2
  | .RIGHT_ELBOW => 3
  | .LEFT_WRIST => 4
  | .RIGHT_WRIST => 5

/-- Name of each enum member (the key string in the TS enum object). -/
def poseLandmarkName : PoseLandmark → String
  | .LEFT_SHOULDER => "LEFT_SHOULDER"
  | .RIGHT_SHOULDER => "RIGHT_SHOULDER"
  | .LEFT_ELBOW => "LEFT_ELBOW"
  | .RIGHT_ELBOW => "RIGHT_ELBOW"
  | .LEFT_WRIST => "LEFT_WRIST"
  | .RIGHT_WRIST => "RIGHT_WRIST"

/-- The fixed list of limb connections, `LIMB_CONNECTIONS` in the source. -/
def LIMB_CONNECTIONS : List (PoseLandmark × PoseLandmark) :=
  [(.LEFT_SHOULDER, .LEFT_ELBOW),
   (.LEFT_ELBOW, .LEFT_WRIST),
   (.RIGHT_SHOULDER, .RIGHT_ELBOW),
   (.RIGHT_ELBOW, .RIGHT_WRIST)]

/-- JS `Math.atan2 y x`: the angle of the point (x, y) in (-pi, pi],
expressed through `Real.arctan` by the standard case analysis.  The
signed-zero distinctions of IEEE arithmetic do not arise in this model. -/
noncomputable def atan2 (y x : ℝ) : ℝ :=
  if 0 < x then arctan (y / x)
  else if x < 0 then
    (if 0 ≤ y then arctan (y / x) + π else arctan (y / x) - π)
  else
    (if 0 < y then π / 2 else if y < 0 then -(π / 2) else 0)

/-- Radian-to-degree conversion, `toDegrees` in the source. -/
noncomputable def toDegrees (radians : ℝ) : ℝ :=
  radians * (180 / π)

/-- Array access `frameLandmarks[i]` in JS: out-of-bounds and missing
entries both read as `undefined`, hence the flattening of the two
option layers. -/
def getLandmark (frameLandmarks : List (Option Point)) (i : ℕ) : Option Point :=
  match frameLandmarks.get? i with
  | some p => p
  | none => none

/-- Normalization and folding steps of the extractor loop: a raw angle
in (-pi, pi] is brought into [0, 2pi) by adding a full turn when
negative, then folded into [0, pi] by reflecting anything beyond a half
turn. -/
noncomputable def normalizeFold (angle : ℝ) : ℝ :=
  let normalizedAngle := if angle < 0 then 2 * π + angle else angle
  if normalizedAngle > π then 2 * π - normalizedAngle else normalizedAngle

/-- Body of the loop of `calculateLimbAngles` for one connection: the
angle of the displacement vector measured by `Math.atan2(dx, dy)` (note
the swapped arguments), normalized into [0, 2pi) and folded into [0, pi],
in degrees; NaN when either endpoint is absent. -/
noncomputable def limbAngle (frameLandmarks : List (Option Point))
    (conn : PoseLandmark × PoseLandmark) : AngleValue :=
  match getLandmark frameLandmarks (poseLandmarkIndex conn.1),
        getLandmark frameLandmarks (poseLandmarkIndex conn.2) with
  | some startPoint, some endPoint =>
      let dx := endPoint.1 - startPoint.1
      let dy := endPoint.2 - startPoint.2
      AngleValue.val (toDegrees (normalizeFold (atan2 dx dy)))
  | _, _ => AngleValue.nan

/-- The angle extractor `calculateLimbAngles`: one angle per limb
connection, in `LIMB_CONNECTIONS` order. -/
noncomputable def calculateLimbAngles
    (frameLandmarks : List (Option Point)) : List AngleValue :=
  LIMB_CONNECTIONS.map (limbAngle frameLandmarks)

/-- The TS `FrameData` record. -/
structure FrameData : Type where
  id : String
  landmarks : List (Option Point)
  angles : List AngleValue
  frameNumber : Int

/-- The TS `FeedbackEntry` record. -/
structure FeedbackEntry : Type where
  feedbackID : String
  referenceFrameData : FrameData
  practiceFrameData : FrameData
  feedback : String
  accuracyValue : ℝ

/-- The difference scorer `computeAngleDifference`: one slot per index of
the reference angle sequence.  When the practice sequence has no entry at
that index (`undefined` in JS) the slot is 0; otherwise it is the JS
subtraction `practice - reference`, which yields NaN whenever either
operand is NaN. -/
noncomputable def computeAngleDifference
    (reference practice : FrameData) : List AngleValue :=
  (List.range reference.angles.length).map fun i =>
    match practice.angles.get? i with
    | some pa =>
        match reference.angles.get? i, pa with
        | some (AngleValue.val r), AngleValue.val p => AngleValue.val (p - r)
        | _, _ => AngleValue.nan
    | none => AngleValue.val 0

/-- Numeric (non-NaN) values of a slot list, in order. -/
def numericValues (l : List AngleValue) : List ℝ :=
  l.filterMap fun a =>
    match a with
    | .val x => some x
    | .nan => none

/-- The scorer `calculateAccuracy`: average of the absolute values of the
non-NaN differences, subtracted from 100 and clamped below at 0; the
result is 0 when the list is empty or every difference is NaN. -/
noncomputable def calculateAccuracy (differences : List AngleValue) : ℝ :=
  if differences.length = 0 then 0
  else
    let numeric := numericValues differences
    if numeric.length = 0 then 0
    else max 0 (100 - (numeric.map (fun v => |v|)).sum / (numeric.length : ℝ))

/-- Modelled from the spec: the aggregate-accuracy formula as §4.2 words it
(max(0, 100 - mean of absolute numeric deltas), 0 when no delta is
numeric), stated independently of the implementation for claim C5. -/
noncomputable def specAccuracy (deltas : List AngleValue) : ℝ :=
  let numeric := numericValues deltas
  if numeric.length = 0 then 0
  else max 0 (100 - (numeric.map (fun v => |v|)).sum / (numeric.length : ℝ))

/-- Splitting a character list at every occurrence of a separator
character, the JS `String.prototype.split` with a one-character
separator (so an empty input yields one empty field). -/
def splitListOn (sep : Char) : List Char → List (List Char)
  | [] => [[]]
  | c :: rest =>
    if c = sep then [] :: splitListOn sep rest
    else
      match splitListOn sep rest with
      | [] => [[c]]
      | h :: t => (c :: h) :: t

/-- Whitespace trimming at both ends, the JS `String.prototype.trim`. -/
def trimList (l : List Char) : List Char :=
  ((l.dropWhile Char.isWhitespace).reverse.dropWhile Char.isWhitespace).reverse

/-- Effect of `replace(/^\[|\]$/g, "")`: one leading opening bracket and
one trailing closing bracket are removed when present. -/
def stripBrackets (l : List Char) : List Char :=
  let l1 := if l.head? = some '[' then l.tail else l
  if l1.getLast? = some ']' then l1.dropLast else l1

/-- Boolean substring test on character lists. -/
def substrB (needle : List Char) : List Char → Bool
  | [] => needle.isEmpty
  | c :: rest => needle.isPrefixOf (c :: rest) || substrB needle rest

/-- String containment: the needle occurs contiguously in the haystack. -/
def ContainsStr (needle hay : String) : Prop :=
  substrB needle.data hay.data = true

/-- Joining with a separator string, the JS `Array.prototype.join`. -/
def joinWith (sep : String) : List String → String
  | [] => ""
  | [s] => s
  | s :: rest => s ++ sep ++ joinWith sep rest

/-- Decimal rendering of a natural number with `d` forced fraction
digits (no digits and no point when `d` is 0), the digit-string part of
the ECMAScript `Number.prototype.toFixed` algorithm. -/
def renderDecimal (n : ℕ) (d : ℕ) : String :=
  if d = 0 then Nat.repr n
  else
    let ds := (Nat.repr n).data
    let padded := List.replicate (d + 1 - ds.length) '0' ++ ds
    String.mk (padded.take (padded.length - d) ++ '.' :: padded.drop (padded.length - d))

/-- The ECMAScript `toFixed(d)` on a (non-NaN) number, idealized over the
reals: the sign is split off first, then the magnitude is scaled by
10 ^ d and rounded to the nearest integer, ties away from zero. -/
noncomputable def toFixedR (x : ℝ) (d : ℕ) : String :=
  if x < 0 then "-" ++ renderDecimal (Int.toNat ⌊(-x) * 10 ^ d + 1 / 2⌋) d
  else renderDecimal (Int.toNat ⌊x * 10 ^ d + 1 / 2⌋) d

/-- Rendering of one difference slot by `diff.toFixed(2)`: the NaN slot
renders as the string "NaN", exactly as in JS. -/
noncomputable def deltaToStr : AngleValue → String
  | .nan => "NaN"
  | .val x => toFixedR x 2

/-- Enum members in declaration order. -/
def allPoseLandmarks : List PoseLandmark :=
  [.LEFT_SHOULDER, .RIGHT_SHOULDER, .LEFT_ELBOW, .RIGHT_ELBOW, .LEFT_WRIST, .RIGHT_WRIST]

/-- The `limbConnectionsString` of `createFeedbackPrompt`. -/
def limbConnectionsString : String :=
  joinWith ", "
    (LIMB_CONNECTIONS.map fun se => poseLandmarkName se.1 ++ " to " ++ poseLandmarkName se.2)

/-- The `poseEnumString` of `createFeedbackPrompt`: `Object.entries` on
the enum object filtered to numeric values walks the name keys in
declaration order. -/
def poseEnumString : String :=
  joinWith "\n"
    (allPoseLandmarks.map fun lm => Nat.repr (poseLandmarkIndex lm) ++ " = " ++ poseLandmarkName lm)

/-- The `angleFeedback` block of `createFeedbackPrompt`: `Object.entries`
on the (dense) differences array yields the index-string/value pairs in
index order. -/
noncomputable def angleFeedbackString (differences : List AngleValue) : String :=
  joinWith "\n"
    (differences.enum.map fun p => "- " ++ Nat.repr p.1 ++ ": difference = " ++ deltaToStr p.2)

/-- The prompt builder `createFeedbackPrompt`.  The `stringify`
parameter stands for `JSON.stringify` on the landmark array, whose
number rendering is a floating-point-specific shortest-representation
algorithm with no counterpart over the reals; everything else is the
template copied from the source. -/
noncomputable def createFeedbackPrompt
    (stringify : List (Option Point) → String)
    (differences : List AngleValue) (accuracyValue : ℝ)
    (referenceFrameData practiceFrameData : FrameData) : String :=
  "\nYou are a professional dance or movement coach AI.\nYou are given differences between a reference choreography pose and a user\x27s practice pose.\n\nAnalyze these angle differences and provide constructive, encouraging feedback\nwith clear instructions on how the user can improve their form.\n\nDATA:\nAccuracy Score: "
  ++ toFixedR accuracyValue 1
  ++ "%\nAngle Differences:\n"
  ++ angleFeedbackString differences
  ++ "\nLimbConnections associated with each angle for reference:\n"
  ++ limbConnectionsString
  ++ "\n\nReference Landmarks Coordinates (PoseLandmark enum index order):\n"
  ++ stringify referenceFrameData.landmarks
  ++ "\nPractice Landmarks Coordinates (PoseLandmark enum index order):\n"
  ++ stringify practiceFrameData.landmarks
  ++ "\nPoseLandmark enum for reference:\n"
  ++ poseEnumString
  ++ "\n\nMake sure to add a concise note on potential landmark detection issues at the end if:\n1. If there is a landmark coordinate (don\x27t mention angles) that is extremely different from other coordinates\nwithin that set of reference or practice pose, highlight it as a potential mis-detection of the joint. DO NOT attempt\nto give any feedback on any angle involving that joint.\n2. If an angle is NaN, it means one of the joints involved in that angle is missing. Mention the specific missing joints\nusing the LimbConnections and PoseLandmark enum reference.\n\nRespond with a short, natural paragraph explaining:\n1. Identify which body parts need adjustment based on the angle differences\n(DO NOT including any angles involving a joint that\x27s an outlier).\n3. For mismatches, provide concise coaching tips for improvement.\n4. Provide a motivational remark to encourage the user.\n\n\n"

/-- The prompt of `createCheckExistingLandmarkPrompt`. -/
def createCheckExistingLandmarkPrompt (feedback : String) : String :=
  "given this feedback " ++ feedback
  ++ ", give me a list of all the joints\nmentioned in the feedback in one list in this format:\n[JOINT_A, JOINT_B, ...]\n1. Only include joints that are mentioned in the feedback.\n2. Use all caps and seperate words with underscores \x22_\x22."

/-- The prompt of `createCheckMoodPrompt`. -/
def createCheckMoodPrompt (feedback : String) : String :=
  "given this feedback " ++ feedback
  ++ ", is the overall mood of the feedback positive?\nRespond with one word \x22TRUE\x22 or \x22FALSE\x22."

/-- Property keys of the TS enum object itself: the numeric reverse
mapping keys first (integer-like keys enumerate first in JS), then the
member names. -/
def poseLandmarkOwnKeys : List String :=
  ["0", "1", "2", "3", "4", "5",
   "LEFT_SHOULDER", "RIGHT_SHOULDER", "LEFT_ELBOW", "RIGHT_ELBOW", "LEFT_WRIST", "RIGHT_WRIST"]

/-- Property keys inherited from `Object.prototype`, which the JS `in`
operator also reports as present on the enum object. -/
def objectPrototypeKeys : List String :=
  ["constructor", "hasOwnProperty", "isPrototypeOf", "propertyIsEnumerable",
   "toLocaleString", "toString", "valueOf",
   "__defineGetter__", "__defineSetter__", "__lookupGetter__", "__lookupSetter__", "__proto__"]

/-- The membership test `lm in PoseLandmark` of the source: true for own
keys of the enum object and for keys inherited from `Object.prototype`. -/
def isPoseLandmarkKey (s : String) : Bool :=
  (poseLandmarkOwnKeys ++ objectPrototypeKeys).contains s

/-- The token list `validateExistingLandmarks` parses out of the LLM
response: brackets stripped, split on commas, each piece trimmed. -/
def extractLandmarkTokens (s : String) : List String :=
  (splitListOn ',' (stripBrackets s.data)).map fun l => String.mk (trimList l)

/-- The validator `validateExistingLandmarks`: throws (error) at the
first parsed token that is not a key of the enum object. -/
def validateExistingLandmarks (existingLandmarksStr : String) : Except String Unit :=
  match (extractLandmarkTokens existingLandmarksStr).find? (fun lm => !(isPoseLandmarkKey lm)) with
  | some lm => Except.error ("LLM referenced unknown landmark: \x22" ++ lm ++ "\x22")
  | none => Except.ok ()

/-- The store lookup `getFeedback`: first entry with the given
identifier, or the not-found error. -/
def getFeedback (feedbackList : List FeedbackEntry) (feedbackID : String) :
    Except String (String × ℝ) :=
  match feedbackList.find? (fun f => f.feedbackID == feedbackID) with
  | some entry => Except.ok (entry.feedback, entry.accuracyValue)
  | none => Except.error ("Feedback with ID " ++ feedbackID ++ " not found.")

/-- The `FeedbackEntry` built inside `analyze` before it is pushed onto
the store: differences, accuracy, prompt, primary LLM call, and the
identifier derived from the two frame identifiers.  The LLM is modelled
as a deterministic prompt-to-response function. -/
noncomputable def analyzeEntry (stringify : List (Option Point) → String)
    (referenceFrameData practiceFrameData : FrameData)
    (llm : String → String) : FeedbackEntry :=
  let diff := computeAngleDifference referenceFrameData practiceFrameData
  let accuracyValue := calculateAccuracy diff
  let prompt := createFeedbackPrompt stringify diff accuracyValue referenceFrameData practiceFrameData
  { feedbackID := "fb-" ++ referenceFrameData.id ++ "-" ++ practiceFrameData.id
    referenceFrameData := referenceFrameData
    practiceFrameData := practiceFrameData
    feedback := llm prompt
    accuracyValue := accuracyValue }

/-- The `analyze` operation: the entry is pushed onto the store first,
then the landmark-vocabulary validation runs on a follow-up LLM call and
its failure propagates as the error result; the mood and word-count
checks of the source only log warnings and touch neither the store nor
the result, so they contribute nothing to the state transition. -/
noncomputable def analyze (stringify : List (Option Point) → String)
    (feedbackList : List FeedbackEntry)
    (referenceFrameData practiceFrameData : FrameData)
    (llm : String → String) : List FeedbackEntry × Except String String :=
  let entry := analyzeEntry stringify referenceFrameData practiceFrameData llm
  let newList := feedbackList ++ [entry]
  match validateExistingLandmarks (llm (createCheckExistingLandmarkPrompt entry.feedback)) with
  | Except.error e => (newList, Except.error e)
  | Except.ok _ => (newList, Except.ok entry.feedbackID)

/-- Sum of absolute values of a real list is nonnegative. -/
lemma sum_abs_nonneg (l : List ℝ) : 0 ≤ (l.map (fun v => |v|)).sum := by
  apply List.sum_nonneg
  intro x hx
  rcases List.mem_map.mp hx with ⟨y, _, rfl⟩
  exact abs_nonneg y

/-- The accuracy value is always in the interval [0, 100]. -/
lemma calculateAccuracy_bounds (differences : List AngleValue) :
    0 ≤ calculateAccuracy differences ∧ calculateAccuracy differences ≤ 100 := by
  unfold calculateAccuracy
  by_cases h : differences.length = 0
  · simp [h]
  · simp only [h, if_false]
    by_cases h2 : (numericValues differences).length = 0
    · simp [h2]
    · simp only [h2, if_false]
      constructor
      · exact le_max_left 0 _
      · apply max_le (by norm_num)
        have hsum : 0 ≤ ((numericValues differences).map (fun v => |v|)).sum :=
          sum_abs_nonneg _
        have hlen : (0 : ℝ) ≤ ((numericValues differences).length : ℝ) := by positivity
        have : 0 ≤ ((numericValues differences).map (fun v => |v|)).sum /
            ((numericValues differences).length : ℝ) := div_nonneg hsum hlen
        linarith

/-- C5.  The aggregate accuracy computed by `calculateAccuracy` equals the
spec formula max(0, 100 - mean of the absolute numeric deltas), is 0 when
no position holds a numeric delta (in particular on the empty sequence),
and always lies within [0, 100]. -/
theorem c5_accuracy_formula (differences : List AngleValue) :
    calculateAccuracy differences = specAccuracy differences ∧
    ((numericValues differences).length = 0 → calculateAccuracy differences = 0) ∧
    calculateAccuracy [] = 0 ∧
    0 ≤ calculateAccuracy differences ∧ calculateAccuracy differences ≤ 100 := by
  refine ⟨?_, ?_, ?_, calculateAccuracy_bounds differences⟩
  · unfold calculateAccuracy specAccuracy
    by_cases h : differences.length = 0
    · have : differences = [] := List.length_eq_zero.mp h
      subst this
      simp [numericValues]
    · simp [h]
  · intro h2
    unfold calculateAccuracy
    by_cases h : differences.length = 0
    · simp [h]
    · simp [h, h2]
  · unfold calculateAccuracy
    simp

/-- Witness for C5 at a concrete delta sequence with an undefined slot. -/
theorem c5_accuracy_formula_witness :
    (numericValues [AngleValue.nan]).length = 0 ∧
    calculateAccuracy [AngleValue.nan] = specAccuracy [AngleValue.nan] ∧
    calculateAccuracy [AngleValue.nan] = 0 := by
  have h := c5_accuracy_formula [AngleValue.nan]
  have hlen : (numericValues [AngleValue.nan]).length = 0 := by
    simp [numericValues]
  exact ⟨hlen, h.1, h.2.1 hlen⟩

/-- Slot `i` of the difference sequence, unfolded. -/
lemma computeAngleDifference_get? (reference practice : FrameData) (i : ℕ)
    (hi : i < reference.angles.length) :
    (computeAngleDifference reference practice).get? i = some
      (match practice.angles.get? i with
       | some pa =>
           match reference.angles.get? i, pa with
           | some (AngleValue.val r), AngleValue.val p => AngleValue.val (p - r)
           | _, _ => AngleValue.nan
       | none => AngleValue.val 0) := by
  unfold computeAngleDifference
  rw [List.get?_eq_getElem?, List.getElem?_map, List.getElem?_range hi]
  rfl

/-- Dropping the NaN slots does not change the numeric values. -/
lemma numericValues_filter_not_isNan (l : List AngleValue) :
    numericValues (l.filter (fun a => !a.isNan)) = numericValues l := by
  induction l with
  | nil => rfl
  | cons a t ih =>
    cases a with
    | nan => simpa [numericValues, AngleValue.isNan, List.filter] using ih
    | val x => simpa [numericValues, AngleValue.isNan, List.filter] using ih

/-- The list of non-NaN slots has as many entries as there are numeric
values. -/
lemma length_filter_not_isNan (l : List AngleValue) :
    (l.filter (fun a => !a.isNan)).length = (numericValues l).length := by
  induction l with
  | nil => rfl
  | cons a t ih =>
    cases a with
    | nan => simpa [numericValues, AngleValue.isNan, List.filter] using ih
    | val x => simpa [numericValues, AngleValue.isNan, List.filter] using ih

/-- The accuracy does not change when the NaN slots are removed from the
difference sequence: NaN positions are excluded from the average, not
counted as zeroes. -/
lemma calculateAccuracy_filter (l : List AngleValue) :
    calculateAccuracy (l.filter (fun a => !a.isNan)) = calculateAccuracy l := by
  unfold calculateAccuracy
  rw [numericValues_filter_not_isNan, length_filter_not_isNan]
  by_cases h2 : (numericValues l).length = 0
  · simp [h2]
  · have hl : ¬ l.length = 0 := by
      intro h0
      have : l = [] := List.length_eq_zero.mp h0
      subst this
      simp [numericValues] at h2
    simp [h2, hl]

/-- C6.  Per-position policy of the difference scorer: a position of the
reference sequence with no corresponding practice entry scores 0; a
position where either side is the NaN sentinel scores the sentinel; a
position where both sides are numeric scores practice minus reference;
and the sentinel positions are excluded from the aggregate average (the
accuracy equals the accuracy of the sequence with the sentinel slots
removed) rather than counted as zero. -/
theorem c6_delta_policy (reference practice : FrameData) (i : ℕ)
    (hi : i < reference.angles.length) :
    (practice.angles.get? i = none →
      (computeAngleDifference reference practice).get? i = some (AngleValue.val 0)) ∧
    (∀ pa ra, practice.angles.get? i = some pa → reference.angles.get? i = some ra →
      (pa.isNan || ra.isNan) = true →
      (computeAngleDifference reference practice).get? i = some AngleValue.nan) ∧
    (∀ p r, practice.angles.get? i = some (AngleValue.val p) →
      reference.angles.get? i = some (AngleValue.val r) →
      (computeAngleDifference reference practice).get? i = some (AngleValue.val (p - r))) ∧
    calculateAccuracy (computeAngleDifference reference practice) =
      calculateAccuracy
        ((computeAngleDifference reference practice).filter (fun a => !a.isNan)) := by
  refine ⟨?_, ?_, ?_, (calculateAccuracy_filter _).symm⟩
  · intro hnone
    rw [computeAngleDifference_get? reference practice i hi, hnone]
  · intro pa ra hpa hra hnan
    rw [computeAngleDifference_get? reference practice i hi, hpa, hra]
    cases pa with
    | nan => cases ra <;> rfl
    | val p =>
      cases ra with
      | nan => rfl
      | val r => simp [AngleValue.isNan] at hnan
  · intro p r hp hr
    rw [computeAngleDifference_get? reference practice i hi, hp, hr]

/-- Witness for C6: reference angles [10, NaN], practice angles [25],
inspected at position 0. -/
theorem c6_delta_policy_witness :
    (0 : ℕ) < (FrameData.mk "r" [] [AngleValue.val 10, AngleValue.nan] 1).angles.length ∧
    ((FrameData.mk "p" [] [AngleValue.val 25] 1).angles.get? 0 = some (AngleValue.val 25) ∧
     (computeAngleDifference (FrameData.mk "r" [] [AngleValue.val 10, AngleValue.nan] 1)
        (FrameData.mk "p" [] [AngleValue.val 25] 1)).get? 0 =
          some (AngleValue.val (25 - 10))) := by
  have h := c6_delta_policy (FrameData.mk "r" [] [AngleValue.val 10, AngleValue.nan] 1)
    (FrameData.mk "p" [] [AngleValue.val 25] 1) 0 (by simp)
  exact ⟨by simp, by simp, h.2.2.1 25 10 (by simp) (by simp)⟩

/-- Membership in the numeric values is membership of the corresponding
slot. -/
lemma mem_numericValues {x : ℝ} {l : List AngleValue} :
    x ∈ numericValues l ↔ AngleValue.val x ∈ l := by
  constructor
  · intro hx
    rcases List.mem_filterMap.mp hx with ⟨a, ha, hfa⟩
    cases a with
    | nan => simp at hfa
    | val y =>
      have : y = x := by simpa using hfa
      subst this
      exact ha
  · intro h
    exact List.mem_filterMap.mpr ⟨AngleValue.val x, h, rfl⟩

/-- Every slot of the self-difference of a frame is NaN or zero. -/
lemma computeAngleDifference_self_mem (f : FrameData) {a : AngleValue}
    (ha : a ∈ computeAngleDifference f f) :
    a = AngleValue.nan ∨ a = AngleValue.val 0 := by
  unfold computeAngleDifference at ha
  rcases List.mem_map.mp ha with ⟨i, _, rfl⟩
  cases hget : f.angles.get? i with
  | none => simp [hget]
  | some pa =>
    cases pa with
    | nan => simp [hget]
    | val r => simp [hget, sub_self]

/-- A numeric slot of the frame yields the zero slot in the
self-difference. -/
lemma val_zero_mem_diff_self (f : FrameData) {r : ℝ} {i : ℕ}
    (h : f.angles.get? i = some (AngleValue.val r)) :
    AngleValue.val 0 ∈ computeAngleDifference f f := by
  have hi : i < f.angles.length := by
    rcases List.get?_eq_some.mp h with ⟨hlt, _⟩
    exact hlt
  have := computeAngleDifference_get? f f i hi
  rw [h] at this
  have h0 : (computeAngleDifference f f).get? i = some (AngleValue.val 0) := by
    rw [this]
    simp [sub_self]
  exact List.get?_mem h0

/-- C3 counterexample.  For the identical reference and practice frame
whose snapshot is empty (no landmark detected), every angle is the NaN
sentinel, the self-difference sequence is all-NaN rather than all-zero,
and the aggregate accuracy is 0, not 100.  This refutes the claim for
arbitrary identical snapshots. -/
theorem c3_counterexample :
    calculateLimbAngles [] =
      [AngleValue.nan, AngleValue.nan, AngleValue.nan, AngleValue.nan] ∧
    computeAngleDifference
        (FrameData.mk "same" [] (calculateLimbAngles []) 1)
        (FrameData.mk "same" [] (calculateLimbAngles []) 1) =
      [AngleValue.nan, AngleValue.nan, AngleValue.nan, AngleValue.nan] ∧
    calculateAccuracy (computeAngleDifference
        (FrameData.mk "same" [] (calculateLimbAngles []) 1)
        (FrameData.mk "same" [] (calculateLimbAngles []) 1)) = 0 ∧
    (0 : ℝ) ≠ 100 := by
  have hangles : calculateLimbAngles [] =
      [AngleValue.nan, AngleValue.nan, AngleValue.nan, AngleValue.nan] := by
    unfold calculateLimbAngles limbAngle getLandmark LIMB_CONNECTIONS
    simp
  have hdiff : computeAngleDifference
      (FrameData.mk "same" [] (calculateLimbAngles []) 1)
      (FrameData.mk "same" [] (calculateLimbAngles []) 1) =
      [AngleValue.nan, AngleValue.nan, AngleValue.nan, AngleValue.nan] := by
    unfold computeAngleDifference
    rw [hangles]
    rfl
  refine ⟨hangles, hdiff, ?_, by norm_num⟩
  rw [hdiff]
  unfold calculateAccuracy
  simp [numericValues]

/-- C3 amended.  For identical reference and practice frames, every
difference slot is zero where the angle is numeric and the NaN sentinel
where the angle is the sentinel; and provided at least one angle slot is
numeric, the aggregate accuracy equals 100. -/
theorem c3_identical_frames (f : FrameData)
    (h : ∃ i r, f.angles.get? i = some (AngleValue.val r)) :
    (∀ a ∈ computeAngleDifference f f, a = AngleValue.nan ∨ a = AngleValue.val 0) ∧
    (∀ i r, f.angles.get? i = some (AngleValue.val r) →
      (computeAngleDifference f f).get? i = some (AngleValue.val 0)) ∧
    (∀ i, f.angles.get? i = some AngleValue.nan →
      (computeAngleDifference f f).get? i = some AngleValue.nan) ∧
    calculateAccuracy (computeAngleDifference f f) = 100 := by
  refine ⟨fun a ha => computeAngleDifference_self_mem f ha, ?_, ?_, ?_⟩
  · intro i r hir
    have hi : i < f.angles.length := by
      rcases List.get?_eq_some.mp hir with ⟨hlt, _⟩
      exact hlt
    have := computeAngleDifference_get? f f i hi
    rw [hir] at this
    rw [this]
    simp [sub_self]
  · intro i hir
    have hi : i < f.angles.length := by
      rcases List.get?_eq_some.mp hir with ⟨hlt, _⟩
      exact hlt
    have := computeAngleDifference_get? f f i hi
    rw [hir] at this
    rw [this]
  · obtain ⟨i, r, hir⟩ := h
    have hmem0 : AngleValue.val 0 ∈ computeAngleDifference f f :=
      val_zero_mem_diff_self f hir
    have hnum0 : (0 : ℝ) ∈ numericValues (computeAngleDifference f f) :=
      mem_numericValues.mpr hmem0
    have hlen : (numericValues (computeAngleDifference f f)).length ≠ 0 := by
      intro h0
      rw [List.length_eq_zero] at h0
      rw [h0] at hnum0
      simp at hnum0
    have hdiflen : (computeAngleDifference f f).length ≠ 0 := by
      intro h0
      rw [List.length_eq_zero] at h0
      rw [h0] at hmem0
      simp at hmem0
    have hall : ∀ x ∈ numericValues (computeAngleDifference f f), x = 0 := by
      intro x hx
      rcases computeAngleDifference_self_mem f (mem_numericValues.mp hx) with h1 | h1
      · exact absurd h1 (by simp)
      · simpa using h1
    have hsum : ((numericValues (computeAngleDifference f f)).map (fun v => |v|)).sum = 0 := by
      apply List.sum_eq_zero
      intro x hx
      rcases List.mem_map.mp hx with ⟨y, hy, rfl⟩
      rw [hall y hy]
      simp
    unfold calculateAccuracy
    simp only [hdiflen, if_false, hlen, hsum]
    rw [zero_div]
    norm_num

/-- Witness for C3 (amended) at a frame with a single numeric angle. -/
theorem c3_identical_frames_witness :
    (∃ i r, (FrameData.mk "a" [] [AngleValue.val 90] 1).angles.get? i =
      some (AngleValue.val r)) ∧
    calculateAccuracy (computeAngleDifference
      (FrameData.mk "a" [] [AngleValue.val 90] 1)
      (FrameData.mk "a" [] [AngleValue.val 90] 1)) = 100 := by
  have hex : ∃ i r, (FrameData.mk "a" [] [AngleValue.val 90] 1).angles.get? i =
      some (AngleValue.val r) := ⟨0, 90, by simp⟩
  exact ⟨hex, (c3_identical_frames (FrameData.mk "a" [] [AngleValue.val 90] 1) hex).2.2.2⟩

/-- Unfolding of `normalizeFold` into plain conditionals. -/
lemma normalizeFold_def (a : ℝ) : normalizeFold a =
    if (if a < 0 then 2 * π + a else a) > π then 2 * π - (if a < 0 then 2 * π + a else a)
    else (if a < 0 then 2 * π + a else a) := rfl

/-- The two-argument arctangent always lies in (-pi, pi]. -/
lemma atan2_bounds (y x : ℝ) : -π < atan2 y x ∧ atan2 y x ≤ π := by
  have hpi := Real.pi_pos
  unfold atan2
  split_ifs with h1 h2 h3 h4 h5
  · have ha1 := Real.neg_pi_div_two_lt_arctan (y / x)
    have ha2 := Real.arctan_lt_pi_div_two (y / x)
    constructor <;> linarith
  · have hyx : y / x ≤ 0 := div_nonpos_iff.mpr (Or.inl ⟨h3, le_of_lt h2⟩)
    have ha0 : arctan (y / x) ≤ 0 := by
      have := Real.arctan_strictMono.monotone hyx
      rwa [Real.arctan_zero] at this
    have ha1 := Real.neg_pi_div_two_lt_arctan (y / x)
    constructor <;> linarith
  · have hy : y < 0 := lt_of_not_le h3
    have hyx : 0 < y / x := div_pos_iff.mpr (Or.inr ⟨hy, h2⟩)
    have ha0 : 0 < arctan (y / x) := by
      have := Real.arctan_strictMono hyx
      rwa [Real.arctan_zero] at this
    have ha2 := Real.arctan_lt_pi_div_two (y / x)
    constructor <;> linarith
  · constructor <;> linarith
  · constructor <;> linarith
  · constructor <;> linarith

/-- Degree conversion maps [0, pi] into [0, 180]. -/
lemma toDegrees_bounds {t : ℝ} (h0 : 0 ≤ t) (h1 : t ≤ π) :
    0 ≤ toDegrees t ∧ toDegrees t ≤ 180 := by
  have hpi := Real.pi_pos
  have hc : (0 : ℝ) < 180 / π := by positivity
  constructor
  · exact mul_nonneg h0 (le_of_lt hc)
  · have := mul_le_mul_of_nonneg_right h1 (le_of_lt hc)
    have hcan : π * (180 / π) = 180 := by
      rw [mul_comm]
      exact div_mul_cancel₀ 180 (ne_of_gt hpi)
    unfold toDegrees
    linarith [hcan ▸ this]

/-- C4.  For every input landmark array, the angle extractor emits
exactly one entry per limb connection, in connection order, and every
entry is either the NaN sentinel or a number within [0, 180]. -/
theorem c4_angle_range (frameLandmarks : List (Option Point)) :
    (calculateLimbAngles frameLandmarks).length = LIMB_CONNECTIONS.length ∧
    (∀ i, (hi : i < LIMB_CONNECTIONS.length) →
      (calculateLimbAngles frameLandmarks).get? i =
        some (limbAngle frameLandmarks (LIMB_CONNECTIONS.get ⟨i, hi⟩))) ∧
    (∀ a ∈ calculateLimbAngles frameLandmarks,
      a = AngleValue.nan ∨ ∃ x, a = AngleValue.val x ∧ 0 ≤ x ∧ x ≤ 180) := by
  refine ⟨by simp [calculateLimbAngles], ?_, ?_⟩
  · intro i hi
    unfold calculateLimbAngles
    rw [List.get?_eq_getElem?, List.getElem?_map]
    rw [List.getElem?_eq_getElem hi]
    simp
  · intro a ha
    rcases List.mem_map.mp ha with ⟨conn, _, rfl⟩
    cases hs : getLandmark frameLandmarks (poseLandmarkIndex conn.1) with
    | none =>
      left
      unfold limbAngle
      rw [hs]
    | some startPoint =>
      cases he : getLandmark frameLandmarks (poseLandmarkIndex conn.2) with
      | none =>
        left
        unfold limbAngle
        rw [hs, he]
      | some endPoint =>
        right
        have hpi := Real.pi_pos
        obtain ⟨hb1, hb2⟩ :=
          atan2_bounds (endPoint.1 - startPoint.1) (endPoint.2 - startPoint.2)
        unfold limbAngle
        rw [hs, he]
        simp only
        refine ⟨_, rfl, ?_⟩
        apply toDegrees_bounds <;>
          (rw [normalizeFold_def]; split_ifs <;> linarith)

/-- Witness for C4 at the empty snapshot and the first connection. -/
theorem c4_angle_range_witness :
    (0 : ℕ) < LIMB_CONNECTIONS.length ∧
    (calculateLimbAngles []).get? 0 =
      some (limbAngle [] (PoseLandmark.LEFT_SHOULDER, PoseLandmark.LEFT_ELBOW)) :=
  ⟨by decide, (c4_angle_range []).2.1 0 (by decide)⟩

/-- The extractor applied to a connection whose endpoints are both
present. -/
lemma limbAngle_eq (frameLandmarks : List (Option Point))
    (conn : PoseLandmark × PoseLandmark) (s e : Point)
    (hs : getLandmark frameLandmarks (poseLandmarkIndex conn.1) = some s)
    (he : getLandmark frameLandmarks (poseLandmarkIndex conn.2) = some e) :
    limbAngle frameLandmarks conn =
      AngleValue.val (toDegrees (normalizeFold (atan2 (e.1 - s.1) (e.2 - s.2)))) := by
  unfold limbAngle
  rw [hs, he]

/-- Value of `Math.atan2(0, -1)`. -/
lemma atan2_zero_negone : atan2 0 (-1) = π := by
  unfold atan2
  rw [if_neg (by norm_num : ¬ (0 : ℝ) < -1), if_pos (by norm_num : (-1 : ℝ) < 0),
    if_pos (le_refl (0 : ℝ))]
  rw [zero_div, Real.arctan_zero, zero_add]

/-- Value of `Math.atan2(-1, -1)`. -/
lemma atan2_negone_negone : atan2 (-1) (-1) = π / 4 - π := by
  unfold atan2
  rw [if_neg (by norm_num : ¬ (0 : ℝ) < -1), if_pos (by norm_num : (-1 : ℝ) < 0),
    if_neg (by norm_num : ¬ (0 : ℝ) ≤ -1)]
  have h : (-1 : ℝ) / (-1) = 1 := by norm_num
  rw [h, Real.arctan_one]

/-- Value of `Math.atan2(1, -1)`. -/
lemma atan2_one_negone : atan2 1 (-1) = -(π / 4) + π := by
  unfold atan2
  rw [if_neg (by norm_num : ¬ (0 : ℝ) < -1), if_pos (by norm_num : (-1 : ℝ) < 0),
    if_pos (by norm_num : (0 : ℝ) ≤ 1)]
  have h : (1 : ℝ) / (-1) = -1 := by norm_num
  rw [h]
  rw [show Real.arctan (-1) = -(π / 4) by rw [← Real.arctan_one, ← Real.arctan_neg]]

/-- Normalization and folding fix pi. -/
lemma normalizeFold_pi : normalizeFold π = π := by
  have hpi := Real.pi_pos
  rw [normalizeFold_def, if_neg (by linarith : ¬ π < 0)]
  rw [if_neg (lt_irrefl π)]

/-- Normalization and folding send pi/4 - pi to 3pi/4. -/
lemma normalizeFold_of_neg : normalizeFold (π / 4 - π) = 3 * π / 4 := by
  have hpi := Real.pi_pos
  rw [normalizeFold_def, if_pos (by linarith : π / 4 - π < 0),
    if_pos (by linarith : 2 * π + (π / 4 - π) > π)]
  ring

/-- Normalization and folding fix 3pi/4. -/
lemma normalizeFold_of_pos : normalizeFold (-(π / 4) + π) = 3 * π / 4 := by
  have hpi := Real.pi_pos
  rw [normalizeFold_def, if_neg (by linarith : ¬ -(π / 4) + π < 0),
    if_neg (by linarith : ¬ -(π / 4) + π > π)]
  ring

/-- Degree value of pi. -/
lemma toDegrees_pi : toDegrees π = 180 := by
  unfold toDegrees
  rw [mul_comm]
  exact div_mul_cancel₀ 180 Real.pi_ne_zero

/-- Degree value of 3pi/4. -/
lemma toDegrees_three_quarter_pi : toDegrees (3 * π / 4) = 135 := by
  unfold toDegrees
  field_simp
  ring

/-- The snapshot of the worked spec example: left shoulder (2,4), right
shoulder (4,4), left elbow (2,3), right elbow (4,3), left wrist (1,2),
right wrist (5,2), stored in enum index order. -/
def exampleLandmarks : List (Option Point) :=
  [some ((2 : ℝ), (4 : ℝ)), some ((4 : ℝ), (4 : ℝ)), some ((2 : ℝ), (3 : ℝ)),
   some ((4 : ℝ), (3 : ℝ)), some ((1 : ℝ), (2 : ℝ)), some ((5 : ℝ), (2 : ℝ))]

/-- C7.  On the worked snapshot of the spec, the extractor returns
exactly the sequence [180, 135, 180, 135] for the four connections in
their fixed order. -/
theorem c7_example_angles :
    calculateLimbAngles exampleLandmarks =
      [AngleValue.val 180, AngleValue.val 135, AngleValue.val 180, AngleValue.val 135] := by
  have h1 : limbAngle exampleLandmarks (.LEFT_SHOULDER, .LEFT_ELBOW) = AngleValue.val 180 := by
    rw [limbAngle_eq exampleLandmarks (.LEFT_SHOULDER, .LEFT_ELBOW) ((2 : ℝ), (4 : ℝ)) ((2 : ℝ), (3 : ℝ)) rfl rfl]
    have ha : ((2 : ℝ), (3 : ℝ)).1 - ((2 : ℝ), (4 : ℝ)).1 = 0 := by norm_num
    have hb : ((2 : ℝ), (3 : ℝ)).2 - ((2 : ℝ), (4 : ℝ)).2 = -1 := by norm_num
    rw [ha, hb, atan2_zero_negone, normalizeFold_pi, toDegrees_pi]
  have h2 : limbAngle exampleLandmarks (.LEFT_ELBOW, .LEFT_WRIST) = AngleValue.val 135 := by
    rw [limbAngle_eq exampleLandmarks (.LEFT_ELBOW, .LEFT_WRIST) ((2 : ℝ), (3 : ℝ)) ((1 : ℝ), (2 : ℝ)) rfl rfl]
    have ha : ((1 : ℝ), (2 : ℝ)).1 - ((2 : ℝ), (3 : ℝ)).1 = -1 := by norm_num
    have hb : ((1 : ℝ), (2 : ℝ)).2 - ((2 : ℝ), (3 : ℝ)).2 = -1 := by norm_num
    rw [ha, hb, atan2_negone_negone, normalizeFold_of_neg, toDegrees_three_quarter_pi]
  have h3 : limbAngle exampleLandmarks (.RIGHT_SHOULDER, .RIGHT_ELBOW) = AngleValue.val 180 := by
    rw [limbAngle_eq exampleLandmarks (.RIGHT_SHOULDER, .RIGHT_ELBOW) ((4 : ℝ), (4 : ℝ)) ((4 : ℝ), (3 : ℝ)) rfl rfl]
    have ha : ((4 : ℝ), (3 : ℝ)).1 - ((4 : ℝ), (4 : ℝ)).1 = 0 := by norm_num
    have hb : ((4 : ℝ), (3 : ℝ)).2 - ((4 : ℝ), (4 : ℝ)).2 = -1 := by norm_num
    rw [ha, hb, atan2_zero_negone, normalizeFold_pi, toDegrees_pi]
  have h4 : limbAngle exampleLandmarks (.RIGHT_ELBOW, .RIGHT_WRIST) = AngleValue.val 135 := by
    rw [limbAngle_eq exampleLandmarks (.RIGHT_ELBOW, .RIGHT_WRIST) ((4 : ℝ), (3 : ℝ)) ((5 : ℝ), (2 : ℝ)) rfl rfl]
    have ha : ((5 : ℝ), (2 : ℝ)).1 - ((4 : ℝ), (3 : ℝ)).1 = 1 := by norm_num
    have hb : ((5 : ℝ), (2 : ℝ)).2 - ((4 : ℝ), (3 : ℝ)).2 = -1 := by norm_num
    rw [ha, hb, atan2_one_negone, normalizeFold_of_pos, toDegrees_three_quarter_pi]
  unfold calculateLimbAngles LIMB_CONNECTIONS
  simp only [List.map]
  rw [h1, h2, h3, h4]

/-- C8.  `getFeedback` fails with the not-found error exactly when no
stored record carries the requested identifier, and when the lookup
finds a record it returns that record's feedback text and accuracy
value (the function reads the store and returns; it performs no write). -/
theorem c8_getFeedback (feedbackList : List FeedbackEntry) (feedbackID : String) :
    (getFeedback feedbackList feedbackID =
        Except.error ("Feedback with ID " ++ feedbackID ++ " not found.") ↔
      ∀ f ∈ feedbackList, f.feedbackID ≠ feedbackID) ∧
    (∀ entry, feedbackList.find? (fun f => f.feedbackID == feedbackID) = some entry →
      getFeedback feedbackList feedbackID =
        Except.ok (entry.feedback, entry.accuracyValue)) := by
  constructor
  · unfold getFeedback
    cases hf : feedbackList.find? (fun f => f.feedbackID == feedbackID) with
    | none =>
      simp only
      constructor
      · intro _ f hfmem heq
        have := List.find?_eq_none.mp hf f hfmem
        simp [heq] at this
      · intro _
        trivial
    | some entry =>
      simp only
      constructor
      · intro h
        exact absurd h (by simp)
      · intro hall
        have hmem := List.mem_of_find?_eq_some hf
        have hp := List.find?_some hf
        exact absurd (by simpa using hp) (hall entry hmem)
  · intro entry hf
    unfold getFeedback
    rw [hf]

/-- Witness for C8: a one-entry store hit and an empty-store miss. -/
theorem c8_getFeedback_witness :
    ([FeedbackEntry.mk "fb-a-b" (FrameData.mk "a" [] [] 1) (FrameData.mk "b" [] [] 1)
        "good job" 90].find?
      (fun f => f.feedbackID == "fb-a-b") =
        some (FeedbackEntry.mk "fb-a-b" (FrameData.mk "a" [] [] 1)
          (FrameData.mk "b" [] [] 1) "good job" 90)) ∧
    getFeedback [FeedbackEntry.mk "fb-a-b" (FrameData.mk "a" [] [] 1)
        (FrameData.mk "b" [] [] 1) "good job" 90] "fb-a-b" =
      Except.ok ("good job", 90) ∧
    getFeedback [] "nope" =
      Except.error ("Feedback with ID " ++ "nope" ++ " not found.") := by
  refine ⟨by rfl, ?_, ?_⟩
  · exact (c8_getFeedback
      [FeedbackEntry.mk "fb-a-b" (FrameData.mk "a" [] [] 1) (FrameData.mk "b" [] [] 1)
        "good job" 90] "fb-a-b").2
      (FeedbackEntry.mk "fb-a-b" (FrameData.mk "a" [] [] 1) (FrameData.mk "b" [] [] 1)
        "good job" 90) (by rfl)
  · exact (c8_getFeedback [] "nope").1.mpr (by simp)

/-- Splitting a list free of the separator yields the single field. -/
lemma splitListOn_eq_single {sep : Char} {l : List Char} (h : sep ∉ l) :
    splitListOn sep l = [l] := by
  induction l with
  | nil => rfl
  | cons c t ih =>
    have hc : ¬ c = sep := fun he => h (he ▸ List.mem_cons_self c t)
    have ht : splitListOn sep t = [t] := ih (fun hm => h (List.mem_cons_of_mem c hm))
    rw [splitListOn, if_neg hc, ht]

/-- Trimming an all-whitespace list yields the empty list. -/
lemma trimList_all_whitespace {l : List Char} (h : ∀ c ∈ l, c.isWhitespace = true) :
    trimList l = [] := by
  unfold trimList
  rw [List.dropWhile_eq_nil_iff.mpr h]
  rfl

/-- Bracket stripping leaves an all-whitespace list unchanged. -/
lemma stripBrackets_all_whitespace {l : List Char} (h : ∀ c ∈ l, c.isWhitespace = true) :
    stripBrackets l = l := by
  unfold stripBrackets
  have h1 : ¬ l.head? = some '[' := by
    intro hh
    rcases List.head?_eq_some_iff.mp hh with ⟨ys, rfl⟩
    have := h '[' (List.mem_cons_self _ _)
    simp at this
  have h2 : ¬ l.getLast? = some ']' := by
    intro hh
    rcases List.getLast?_eq_some_iff.mp hh with ⟨ys, rfl⟩
    have := h ']' (by simp)
    simp at this
  rw [if_neg h1, if_neg h2]

/-- C9.  When the vocabulary-extraction response is the empty list "[]"
or an empty or whitespace-only string, the validator parses out the
single empty token, which is not a key of the enum object, so the
unknown-landmark error is raised; consequently `analyze` fails whenever
the extraction call returns "[]", even though such feedback mentions no
joints at all. -/
theorem c9_empty_extraction (l : List Char) (hws : ∀ c ∈ l, c.isWhitespace = true) :
    validateExistingLandmarks "[]" =
      Except.error "LLM referenced unknown landmark: \x22\x22" ∧
    validateExistingLandmarks (String.mk l) =
      Except.error "LLM referenced unknown landmark: \x22\x22" ∧
    (∀ stringify feedbackList referenceFrameData practiceFrameData llm,
      llm (createCheckExistingLandmarkPrompt
        (analyzeEntry stringify referenceFrameData practiceFrameData llm).feedback) = "[]" →
      (analyze stringify feedbackList referenceFrameData practiceFrameData llm).2 =
        Except.error "LLM referenced unknown landmark: \x22\x22") := by
  have hempty : validateExistingLandmarks "[]" =
      Except.error "LLM referenced unknown landmark: \x22\x22" := by rfl
  refine ⟨hempty, ?_, ?_⟩
  · unfold validateExistingLandmarks extractLandmarkTokens
    rw [show (String.mk l).data = l from rfl, stripBrackets_all_whitespace hws,
      splitListOn_eq_single (fun hm => by simpa using hws ',' hm),
      List.map_cons, List.map_nil, trimList_all_whitespace hws]
    rfl
  · intro stringify feedbackList referenceFrameData practiceFrameData llm hllm
    simp only [analyze]
    rw [hllm, hempty]

/-- Witness for C9: a single-space response string, and a run of
`analyze` whose extraction call returns "[]". -/
theorem c9_empty_extraction_witness :
    (∀ c ∈ [' '], c.isWhitespace = true) ∧
    validateExistingLandmarks (String.mk [' ']) =
      Except.error "LLM referenced unknown landmark: \x22\x22" ∧
    (analyze (fun _ => "") [] (FrameData.mk "r" [] [] 1) (FrameData.mk "p" [] [] 1)
        (fun _ => "[]")).2 =
      Except.error "LLM referenced unknown landmark: \x22\x22" := by
  have h := c9_empty_extraction [' '] (by decide)
  exact ⟨by decide, h.2.1,
    h.2.2 (fun _ => "") [] (FrameData.mk "r" [] [] 1) (FrameData.mk "p" [] [] 1)
      (fun _ => "[]") rfl⟩

/-- C2 counterexample.  The extraction response "[3]" parses to the
single token "3", which is not the name of any landmark in the fixed
vocabulary; yet the membership test of the source accepts it (the TS
numeric enum object also carries the reverse-mapping keys "0".."5"), so
`analyze` completes without raising the unknown-landmark error.  This
refutes the claim that a token outside the fixed landmark vocabulary
always raises the error. -/
theorem c2_counterexample :
    extractLandmarkTokens "[3]" = ["3"] ∧
    (∀ lm ∈ allPoseLandmarks, poseLandmarkName lm ≠ "3") ∧
    validateExistingLandmarks "[3]" = Except.ok () ∧
    (analyze (fun _ => "") [] (FrameData.mk "r" [] [] 1) (FrameData.mk "p" [] [] 1)
        (fun _ => "[3]")).2 = Except.ok ("fb-" ++ "r" ++ "-" ++ "p") := by
  refine ⟨by rfl, by decide, by rfl, ?_⟩
  rfl

/-- C2 amended.  Whenever the vocabulary check finds an extracted token
that is not a key of the enum object (neither a landmark name, nor one
of the reverse-mapping index strings "0".."5", nor an inherited
`Object.prototype` property name), `analyze` propagates the
unknown-landmark error — and only after the record has been appended to
the store: the new store is the old one with the record appended, and
`getFeedback` on the record's identifier succeeds on that store. -/
theorem c2_error_after_store (stringify : List (Option Point) → String)
    (feedbackList : List FeedbackEntry)
    (referenceFrameData practiceFrameData : FrameData)
    (llm : String → String) (badTok : String)
    (h : (extractLandmarkTokens (llm (createCheckExistingLandmarkPrompt
        (analyzeEntry stringify referenceFrameData practiceFrameData llm).feedback))).find?
          (fun lm => !(isPoseLandmarkKey lm)) = some badTok) :
    (analyze stringify feedbackList referenceFrameData practiceFrameData llm).2 =
      Except.error ("LLM referenced unknown landmark: \x22" ++ badTok ++ "\x22") ∧
    (analyze stringify feedbackList referenceFrameData practiceFrameData llm).1 =
      feedbackList ++ [analyzeEntry stringify referenceFrameData practiceFrameData llm] ∧
    (∃ r, getFeedback
        (analyze stringify feedbackList referenceFrameData practiceFrameData llm).1
        (analyzeEntry stringify referenceFrameData practiceFrameData llm).feedbackID =
      Except.ok r) := by
  have hv : validateExistingLandmarks (llm (createCheckExistingLandmarkPrompt
      (analyzeEntry stringify referenceFrameData practiceFrameData llm).feedback)) =
      Except.error ("LLM referenced unknown landmark: \x22" ++ badTok ++ "\x22") := by
    unfold validateExistingLandmarks
    rw [h]
  refine ⟨?_, ?_, ?_⟩
  · simp only [analyze]
    rw [hv]
  · simp only [analyze]
    rw [hv]
  · simp only [analyze]
    rw [hv]
    simp only
    unfold getFeedback
    rw [List.find?_append]
    cases hf : feedbackList.find? (fun f => f.feedbackID ==
        (analyzeEntry stringify referenceFrameData practiceFrameData llm).feedbackID) with
    | some e1 =>
      rw [Option.or]
      exact ⟨(e1.feedback, e1.accuracyValue), rfl⟩
    | none =>
      rw [Option.or]
      have hfind : List.find? (fun f => f.feedbackID ==
          (analyzeEntry stringify referenceFrameData practiceFrameData llm).feedbackID)
          [analyzeEntry stringify referenceFrameData practiceFrameData llm] =
          some (analyzeEntry stringify referenceFrameData practiceFrameData llm) := by
        simp
      rw [hfind]
      exact ⟨_, rfl⟩

/-- Witness for C2 (amended): the extraction call returns "[FOO]". -/
theorem c2_error_after_store_witness :
    ((extractLandmarkTokens ((fun _ : String => "[FOO]") (createCheckExistingLandmarkPrompt
        (analyzeEntry (fun _ => "") (FrameData.mk "r" [] [] 1) (FrameData.mk "p" [] [] 1)
          (fun _ => "[FOO]")).feedback))).find?
            (fun lm => !(isPoseLandmarkKey lm)) = some "FOO") ∧
    (analyze (fun _ => "") [] (FrameData.mk "r" [] [] 1) (FrameData.mk "p" [] [] 1)
        (fun _ => "[FOO]")).2 =
      Except.error ("LLM referenced unknown landmark: \x22" ++ "FOO" ++ "\x22") ∧
    (∃ r, getFeedback
        (analyze (fun _ => "") [] (FrameData.mk "r" [] [] 1) (FrameData.mk "p" [] [] 1)
          (fun _ => "[FOO]")).1
        (analyzeEntry (fun _ => "") (FrameData.mk "r" [] [] 1) (FrameData.mk "p" [] [] 1)
          (fun _ => "[FOO]")).feedbackID = Except.ok r) := by
  have h := c2_error_after_store (fun _ => "") [] (FrameData.mk "r" [] [] 1)
    (FrameData.mk "p" [] [] 1) (fun _ => "[FOO]") "FOO" (by rfl)
  exact ⟨by rfl, h.1, h.2.2⟩

/-- The identifier of the entry built by `analyze` is derived from the
two frame identifiers. -/
lemma analyzeEntry_feedbackID (stringify : List (Option Point) → String)
    (r p : FrameData) (llm : String → String) :
    (analyzeEntry stringify r p llm).feedbackID = "fb-" ++ r.id ++ "-" ++ p.id := rfl

/-- `analyze` always appends its entry to the store, error or not. -/
lemma analyze_fst (stringify : List (Option Point) → String)
    (l : List FeedbackEntry) (r p : FrameData) (llm : String → String) :
    (analyze stringify l r p llm).1 = l ++ [analyzeEntry stringify r p llm] := by
  simp only [analyze]
  cases validateExistingLandmarks
    (llm (createCheckExistingLandmarkPrompt (analyzeEntry stringify r p llm).feedback)) <;> rfl

/-- A successful `analyze` returns exactly the derived identifier. -/
lemma analyze_snd_ok (stringify : List (Option Point) → String)
    (l : List FeedbackEntry) (r p : FrameData) (llm : String → String)
    (id : String) (h : (analyze stringify l r p llm).2 = Except.ok id) :
    id = (analyzeEntry stringify r p llm).feedbackID := by
  simp only [analyze] at h
  revert h
  cases validateExistingLandmarks
      (llm (createCheckExistingLandmarkPrompt (analyzeEntry stringify r p llm).feedback)) with
  | error e =>
    intro h
    simp at h
  | ok u =>
    intro h
    have := h
    simp at this
    exact this.symm

/-- C10.  The identifier handed out by `analyze` is deterministically
"fb-" ++ reference id ++ "-" ++ practice id; two calls with frames
bearing the same identifier pair append two records under the same
feedbackID, and `getFeedback` on that identifier returns the earliest
appended record's feedback and accuracy, never the later one. -/
theorem c10_duplicate_ids (stringify1 stringify2 : List (Option Point) → String)
    (feedbackList : List FeedbackEntry)
    (ref1 practice1 ref2 practice2 : FrameData)
    (llm1 llm2 : String → String)
    (hr : ref2.id = ref1.id) (hp : practice2.id = practice1.id)
    (hfresh : ∀ f ∈ feedbackList,
      f.feedbackID ≠ "fb-" ++ ref1.id ++ "-" ++ practice1.id) :
    (analyzeEntry stringify1 ref1 practice1 llm1).feedbackID =
      "fb-" ++ ref1.id ++ "-" ++ practice1.id ∧
    (analyzeEntry stringify2 ref2 practice2 llm2).feedbackID =
      (analyzeEntry stringify1 ref1 practice1 llm1).feedbackID ∧
    (∀ id, (analyze stringify1 feedbackList ref1 practice1 llm1).2 = Except.ok id →
      id = "fb-" ++ ref1.id ++ "-" ++ practice1.id) ∧
    (analyze stringify2 (analyze stringify1 feedbackList ref1 practice1 llm1).1
        ref2 practice2 llm2).1 =
      feedbackList ++ [analyzeEntry stringify1 ref1 practice1 llm1]
        ++ [analyzeEntry stringify2 ref2 practice2 llm2] ∧
    getFeedback
      (analyze stringify2 (analyze stringify1 feedbackList ref1 practice1 llm1).1
        ref2 practice2 llm2).1
      ("fb-" ++ ref1.id ++ "-" ++ practice1.id) =
      Except.ok ((analyzeEntry stringify1 ref1 practice1 llm1).feedback,
        (analyzeEntry stringify1 ref1 practice1 llm1).accuracyValue) := by
  have hid2 : (analyzeEntry stringify2 ref2 practice2 llm2).feedbackID =
      (analyzeEntry stringify1 ref1 practice1 llm1).feedbackID := by
    rw [analyzeEntry_feedbackID, analyzeEntry_feedbackID, hr, hp]
  refine ⟨rfl, hid2, ?_, ?_, ?_⟩
  · intro id h
    exact analyze_snd_ok stringify1 feedbackList ref1 practice1 llm1 id h
  · rw [analyze_fst, analyze_fst]
  · rw [analyze_fst, analyze_fst]
    unfold getFeedback
    have h0 : feedbackList.find?
        (fun f => f.feedbackID == "fb-" ++ ref1.id ++ "-" ++ practice1.id) = none :=
      List.find?_eq_none.mpr (fun f hf => by simp [hfresh f hf])
    have h1 : [analyzeEntry stringify1 ref1 practice1 llm1].find?
        (fun f => f.feedbackID == "fb-" ++ ref1.id ++ "-" ++ practice1.id) =
        some (analyzeEntry stringify1 ref1 practice1 llm1) := by
      simp [analyzeEntry_feedbackID]
    rw [List.find?_append, List.find?_append, h0, h1]
    rfl

/-- Witness for C10: two runs over the same identifier pair "r"/"p" on a
fresh store; the lookup returns the first run's feedback and accuracy. -/
theorem c10_duplicate_ids_witness :
    (∀ f ∈ ([] : List FeedbackEntry), f.feedbackID ≠ "fb-" ++ "r" ++ "-" ++ "p") ∧
    getFeedback
      (analyze (fun _ => "") (analyze (fun _ => "") [] (FrameData.mk "r" [] [] 1)
          (FrameData.mk "p" [] [] 1) (fun _ => "first")).1
        (FrameData.mk "r" [] [AngleValue.val 5] 2) (FrameData.mk "p" [] [] 2)
        (fun _ => "second")).1
      ("fb-" ++ "r" ++ "-" ++ "p") = Except.ok ("first", 0) := by
  have h := c10_duplicate_ids (fun _ => "") (fun _ => "") []
    (FrameData.mk "r" [] [] 1) (FrameData.mk "p" [] [] 1)
    (FrameData.mk "r" [] [AngleValue.val 5] 2) (FrameData.mk "p" [] [] 2)
    (fun _ => "first") (fun _ => "second") rfl rfl (by simp)
  exact ⟨by simp, h.2.2.2.2⟩

/-- The boolean substring test agrees with list infix. -/
lemma substrB_iff_infix (needle hay : List Char) :
    substrB needle hay = true ↔ needle <:+: hay := by
  induction hay with
  | nil =>
    simp [substrB, List.isEmpty_iff, List.infix_nil]
  | cons c t ih =>
    rw [substrB, Bool.or_eq_true, List.isPrefixOf_iff_prefix, ih, List.infix_cons_iff]

/-- String containment through list infix. -/
lemma containsStr_iff (needle hay : String) :
    ContainsStr needle hay ↔ needle.data <:+: hay.data := by
  unfold ContainsStr
  exact substrB_iff_infix needle.data hay.data

/-- A middle factor of a string concatenation is contained in it. -/
lemma containsStr_middle (a mid b : String) : ContainsStr mid (a ++ mid ++ b) := by
  rw [containsStr_iff]
  exact ⟨a.data, b.data, by simp⟩

/-- Containment transfers along list infix of the haystacks. -/
lemma containsStr_of_infix {needle hay1 hay2 : String}
    (h1 : ContainsStr needle hay1) (h2 : hay1.data <:+: hay2.data) :
    ContainsStr needle hay2 := by
  rw [containsStr_iff] at h1 ⊢
  exact h1.trans h2

/-- Unfolding of `joinWith` on a two-or-more-element list. -/
lemma joinWith_cons_cons (sep s s2 : String) (rest : List String) :
    joinWith sep (s :: s2 :: rest) = s ++ sep ++ joinWith sep (s2 :: rest) := rfl

/-- Each line of a joined list is contained in the join. -/
lemma joinWith_get?_infix (sep : String) (lines : List String) (i : ℕ) (line : String)
    (h : lines.get? i = some line) :
    line.data <:+: (joinWith sep lines).data := by
  induction lines generalizing i with
  | nil => simp at h
  | cons s rest ih =>
    cases rest with
    | nil =>
      cases i with
      | zero =>
        have hls : line = s := (by simpa using h : s = line).symm
        subst hls
        exact List.infix_rfl
      | succ j => simp at h
    | cons s2 rest2 =>
      cases i with
      | zero =>
        have hls : line = s := (by simpa using h : s = line).symm
        subst hls
        rw [joinWith_cons_cons]
        exact ⟨[], (sep ++ joinWith sep (s2 :: rest2)).data, by simp⟩
      | succ j =>
        have hh : (s2 :: rest2).get? j = some line := by simpa using h
        have hrec := ih j hh
        rw [joinWith_cons_cons]
        refine hrec.trans ⟨(s ++ sep).data, [], by simp⟩

set_option maxRecDepth 8192

/-- C1 amended.  For every delta sequence, accuracy value and pair of
frames, the prompt built by `createFeedbackPrompt` contains the
aggregate accuracy rendered to one decimal place; it contains, for each
position i of the delta sequence, a line "- i: difference = d" where d
is the delta rendered to two decimal places or the string "NaN" for the
undefined sentinel — the line is labelled by the positional index, not
by the endpoint landmark names; and the index-to-endpoint-names mapping
is supplied separately through the connections list, which the prompt
also contains. -/
theorem c1_prompt_content (stringify : List (Option Point) → String)
    (differences : List AngleValue) (accuracyValue : ℝ)
    (referenceFrameData practiceFrameData : FrameData) :
    ContainsStr ("Accuracy Score: " ++ toFixedR accuracyValue 1 ++ "%")
      (createFeedbackPrompt stringify differences accuracyValue
        referenceFrameData practiceFrameData) ∧
    (∀ i d, differences.get? i = some d →
      ContainsStr ("- " ++ Nat.repr i ++ ": difference = " ++ deltaToStr d)
        (createFeedbackPrompt stringify differences accuracyValue
          referenceFrameData practiceFrameData)) ∧
    ContainsStr limbConnectionsString
      (createFeedbackPrompt stringify differences accuracyValue
        referenceFrameData practiceFrameData) := by
  have heq1 : createFeedbackPrompt stringify differences accuracyValue
      referenceFrameData practiceFrameData =
      "\nYou are a professional dance or movement coach AI.\nYou are given differences between a reference choreography pose and a user\x27s practice pose.\n\nAnalyze these angle differences and provide constructive, encouraging feedback\nwith clear instructions on how the user can improve their form.\n\nDATA:\n" ++ ("Accuracy Score: " ++ toFixedR accuracyValue 1 ++ "%") ++
      ("\nAngle Differences:\n" ++ angleFeedbackString differences ++ "\nLimbConnections associated with each angle for reference:\n" ++ limbConnectionsString ++ "\n\nReference Landmarks Coordinates (PoseLandmark enum index order):\n" ++
       stringify referenceFrameData.landmarks ++ "\nPractice Landmarks Coordinates (PoseLandmark enum index order):\n" ++
       stringify practiceFrameData.landmarks ++ "\nPoseLandmark enum for reference:\n" ++ poseEnumString ++ "\n\nMake sure to add a concise note on potential landmark detection issues at the end if:\n1. If there is a landmark coordinate (don\x27t mention angles) that is extremely different from other coordinates\nwithin that set of reference or practice pose, highlight it as a potential mis-detection of the joint. DO NOT attempt\nto give any feedback on any angle involving that joint.\n2. If an angle is NaN, it means one of the joints involved in that angle is missing. Mention the specific missing joints\nusing the LimbConnections and PoseLandmark enum reference.\n\nRespond with a short, natural paragraph explaining:\n1. Identify which body parts need adjustment based on the angle differences\n(DO NOT including any angles involving a joint that\x27s an outlier).\n3. For mismatches, provide concise coaching tips for improvement.\n4. Provide a motivational remark to encourage the user.\n\n\n") := by
    unfold createFeedbackPrompt
    rw [show ("\nYou are a professional dance or movement coach AI.\nYou are given differences between a reference choreography pose and a user\x27s practice pose.\n\nAnalyze these angle differences and provide constructive, encouraging feedback\nwith clear instructions on how the user can improve their form.\n\nDATA:\nAccuracy Score: " : String) = "\nYou are a professional dance or movement coach AI.\nYou are given differences between a reference choreography pose and a user\x27s practice pose.\n\nAnalyze these angle differences and provide constructive, encouraging feedback\nwith clear instructions on how the user can improve their form.\n\nDATA:\n" ++ "Accuracy Score: " from rfl,
        show ("%\nAngle Differences:\n" : String) = "%" ++ "\nAngle Differences:\n" from rfl]
    simp only [String.append_assoc]
  have heq2 : createFeedbackPrompt stringify differences accuracyValue
      referenceFrameData practiceFrameData =
      ("\nYou are a professional dance or movement coach AI.\nYou are given differences between a reference choreography pose and a user\x27s practice pose.\n\nAnalyze these angle differences and provide constructive, encouraging feedback\nwith clear instructions on how the user can improve their form.\n\nDATA:\nAccuracy Score: " ++ toFixedR accuracyValue 1 ++ "%\nAngle Differences:\n") ++ angleFeedbackString differences ++
      ("\nLimbConnections associated with each angle for reference:\n" ++ limbConnectionsString ++ "\n\nReference Landmarks Coordinates (PoseLandmark enum index order):\n" ++
       stringify referenceFrameData.landmarks ++ "\nPractice Landmarks Coordinates (PoseLandmark enum index order):\n" ++
       stringify practiceFrameData.landmarks ++ "\nPoseLandmark enum for reference:\n" ++ poseEnumString ++ "\n\nMake sure to add a concise note on potential landmark detection issues at the end if:\n1. If there is a landmark coordinate (don\x27t mention angles) that is extremely different from other coordinates\nwithin that set of reference or practice pose, highlight it as a potential mis-detection of the joint. DO NOT attempt\nto give any feedback on any angle involving that joint.\n2. If an angle is NaN, it means one of the joints involved in that angle is missing. Mention the specific missing joints\nusing the LimbConnections and PoseLandmark enum reference.\n\nRespond with a short, natural paragraph explaining:\n1. Identify which body parts need adjustment based on the angle differences\n(DO NOT including any angles involving a joint that\x27s an outlier).\n3. For mismatches, provide concise coaching tips for improvement.\n4. Provide a motivational remark to encourage the user.\n\n\n") := by
    unfold createFeedbackPrompt
    simp only [String.append_assoc]
  have heq3 : createFeedbackPrompt stringify differences accuracyValue
      referenceFrameData practiceFrameData =
      ("\nYou are a professional dance or movement coach AI.\nYou are given differences between a reference choreography pose and a user\x27s practice pose.\n\nAnalyze these angle differences and provide constructive, encouraging feedback\nwith clear instructions on how the user can improve their form.\n\nDATA:\nAccuracy Score: " ++ toFixedR accuracyValue 1 ++ "%\nAngle Differences:\n" ++ angleFeedbackString differences ++
        "\nLimbConnections associated with each angle for reference:\n") ++ limbConnectionsString ++
      ("\n\nReference Landmarks Coordinates (PoseLandmark enum index order):\n" ++ stringify referenceFrameData.landmarks ++ "\nPractice Landmarks Coordinates (PoseLandmark enum index order):\n" ++
       stringify practiceFrameData.landmarks ++ "\nPoseLandmark enum for reference:\n" ++ poseEnumString ++ "\n\nMake sure to add a concise note on potential landmark detection issues at the end if:\n1. If there is a landmark coordinate (don\x27t mention angles) that is extremely different from other coordinates\nwithin that set of reference or practice pose, highlight it as a potential mis-detection of the joint. DO NOT attempt\nto give any feedback on any angle involving that joint.\n2. If an angle is NaN, it means one of the joints involved in that angle is missing. Mention the specific missing joints\nusing the LimbConnections and PoseLandmark enum reference.\n\nRespond with a short, natural paragraph explaining:\n1. Identify which body parts need adjustment based on the angle differences\n(DO NOT including any angles involving a joint that\x27s an outlier).\n3. For mismatches, provide concise coaching tips for improvement.\n4. Provide a motivational remark to encourage the user.\n\n\n") := by
    unfold createFeedbackPrompt
    simp only [String.append_assoc]
  refine ⟨?_, ?_, ?_⟩
  · rw [heq1]
    exact containsStr_middle _ _ _
  · intro i d hid
    have hlines : (differences.enum.map (fun p =>
        "- " ++ Nat.repr p.1 ++ ": difference = " ++ deltaToStr p.2)).get? i =
        some ("- " ++ Nat.repr i ++ ": difference = " ++ deltaToStr d) := by
      rw [List.get?_eq_getElem?, List.getElem?_map, List.getElem?_enum]
      rw [List.get?_eq_getElem?] at hid
      rw [hid]
      rfl
    have hline : ("- " ++ Nat.repr i ++ ": difference = " ++ deltaToStr d).data <:+:
        (angleFeedbackString differences).data := by
      unfold angleFeedbackString
      exact joinWith_get?_infix "\n" _ i _ hlines
    have hmid : ContainsStr (angleFeedbackString differences)
        (createFeedbackPrompt stringify differences accuracyValue
          referenceFrameData practiceFrameData) := by
      rw [heq2]
      exact containsStr_middle _ _ _
    exact containsStr_of_infix ((containsStr_iff _ _).mpr hline)
      ((containsStr_iff _ _).mp hmid)
  · rw [heq3]
    exact containsStr_middle _ _ _

/-- Witness for C1 (amended): a one-element delta sequence at index 0. -/
theorem c1_prompt_content_witness :
    ([AngleValue.val 45].get? 0 = some (AngleValue.val 45)) ∧
    ContainsStr ("- " ++ Nat.repr 0 ++ ": difference = " ++ deltaToStr (AngleValue.val 45))
      (createFeedbackPrompt (fun _ => "") [AngleValue.val 45] 0
        (FrameData.mk "r" [] [] 1) (FrameData.mk "p" [] [] 1)) :=
  ⟨rfl, (c1_prompt_content (fun _ => "") [AngleValue.val 45] 0
    (FrameData.mk "r" [] [] 1) (FrameData.mk "p" [] [] 1)).2.1 0 (AngleValue.val 45) rfl⟩

/-- Evaluation rule for `toFixed` on a nonnegative number whose rounding
is pinned down. -/
lemma toFixedR_eval (x : ℝ) (d n : ℕ) (h0 : 0 ≤ x)
    (h1 : (n : ℝ) ≤ x * 10 ^ d + 1 / 2) (h2 : x * 10 ^ d + 1 / 2 < n + 1) :
    toFixedR x d = renderDecimal n d := by
  unfold toFixedR
  rw [if_neg (not_lt.mpr h0)]
  have hfl : ⌊x * 10 ^ d + 1 / 2⌋ = (n : ℤ) := by
    rw [Int.floor_eq_iff]
    constructor
    · exact_mod_cast h1
    · push_cast
      exact h2
  rw [hfl]
  simp

/-- Rendering of the accuracy value 0 to one decimal place. -/
lemma toFixedR_zero_one : toFixedR 0 1 = "0.0" := by
  rw [toFixedR_eval 0 1 0 le_rfl (by norm_num) (by norm_num)]
  rfl

/-- Rendering of the delta 45 to two decimal places. -/
lemma deltaToStr_45 : deltaToStr (AngleValue.val 45) = "45.00" := by
  show toFixedR 45 2 = "45.00"
  rw [toFixedR_eval 45 2 4500 (by norm_num) (by norm_num) (by norm_num)]
  rfl

/-- Rendering of the delta 0 to two decimal places. -/
lemma deltaToStr_0 : deltaToStr (AngleValue.val 0) = "0.00" := by
  show toFixedR 0 2 = "0.00"
  rw [toFixedR_eval 0 2 0 le_rfl (by norm_num) (by norm_num)]
  rfl

/-- C1 counterexample.  At the delta sequence [NaN, 45, 0, 0] with
accuracy 0 and two frames, the built prompt nowhere contains the string
"undefined" (the NaN delta renders as the line "- 0: difference = NaN"),
and it contains no delta line labelled by the endpoint landmark names —
the 45-degree delta of the LEFT_ELBOW-to-LEFT_WRIST connection appears
only as the index-labelled line "- 1: difference = 45.00".  This refutes
both the explicit-"undefined"-marker part and the labelled-by-names part
of the claim. -/
theorem c1_counterexample :
    ¬ ContainsStr "undefined"
      (createFeedbackPrompt (fun _ => "")
        [AngleValue.nan, AngleValue.val 45, AngleValue.val 0, AngleValue.val 0] 0
        (FrameData.mk "r" [] [] 1) (FrameData.mk "p" [] [] 1)) ∧
    ¬ ContainsStr "LEFT_ELBOW to LEFT_WRIST: difference = 45.00"
      (createFeedbackPrompt (fun _ => "")
        [AngleValue.nan, AngleValue.val 45, AngleValue.val 0, AngleValue.val 0] 0
        (FrameData.mk "r" [] [] 1) (FrameData.mk "p" [] [] 1)) ∧
    ContainsStr "- 0: difference = NaN"
      (createFeedbackPrompt (fun _ => "")
        [AngleValue.nan, AngleValue.val 45, AngleValue.val 0, AngleValue.val 0] 0
        (FrameData.mk "r" [] [] 1) (FrameData.mk "p" [] [] 1)) ∧
    ContainsStr "- 1: difference = 45.00"
      (createFeedbackPrompt (fun _ => "")
        [AngleValue.nan, AngleValue.val 45, AngleValue.val 0, AngleValue.val 0] 0
        (FrameData.mk "r" [] [] 1) (FrameData.mk "p" [] [] 1)) := by
  have hmap : ([AngleValue.nan, AngleValue.val 45, AngleValue.val 0,
      AngleValue.val 0].enum.map (fun p =>
        "- " ++ Nat.repr p.1 ++ ": difference = " ++ deltaToStr p.2)) =
      ["- 0: difference = NaN",
       "- 1: difference = " ++ deltaToStr (AngleValue.val 45),
       "- 2: difference = " ++ deltaToStr (AngleValue.val 0),
       "- 3: difference = " ++ deltaToStr (AngleValue.val 0)] := rfl
  refine ⟨?_, ?_, ?_, ?_⟩ <;>
    (unfold ContainsStr createFeedbackPrompt angleFeedbackString
     rw [hmap, deltaToStr_45, deltaToStr_0, toFixedR_zero_one]
     decide)
